import Mathlib

/-!
Verification of the battle engine of a Pokémon-style battle game frontend.

The development shallowly embeds the battle-related JavaScript modules:
`src/utils/battleUtils.js` (damage calculation, type chart, default moves),
the battle reducer (`BattleReducer.js`), the battle context layer
(`BattleContext` in `src/context/context.js`: victory progression, item use
in battle, Pokémon switching) and the switch guard of
`BattleControls.jsx`.

Modelling conventions:
- JavaScript numbers are modelled as exact rationals (`ℚ`); `Math.floor`
  is `Int.floor`.  Integer results (damage) are `ℤ`.
- Nullable values are `Option`; a JavaScript `TypeError` from reading a
  property of `null`/`undefined` is modelled by returning `Except.error`.
- The falsy-default idiom `x || d` is modelled by `jsOrQ`/`jsOrS`
  (`0` and `""` are the falsy values that can occur for the embedded
  fields).
- `Math.random()`-driven draws (critical hit, damage jitter) are passed
  in explicitly through an `Rng` value.
- Object fields that exist in the source but are never read by any
  embedded code path (sprites, moves array, boost marker keys) are
  omitted.
-/

/-- Base stats block (`stats` object of a creature). -/
structure Stats where
  hp : ℚ
  attack : ℚ
  defense : ℚ
  speed : ℚ
deriving DecidableEq

/-- A battle participant (player roster member or enemy). -/
structure Pokemon where
  id : String
  name : String
  type : String
  level : ℚ
  xp : ℚ
  currentHp : ℚ
  stats : Stats
  isHit : Bool := false
deriving DecidableEq

/-- A move: `{name, type, power}`. -/
structure Move where
  name : String
  type : String
  power : ℚ
deriving DecidableEq

/-- An inventory item. -/
structure Item where
  id : String
  name : String
  effect : String
  amount : ℚ
  stat : String := ""
  statusEffect : String := ""
  battleUsable : Bool
  quantity : ℤ
  price : ℚ := 0
deriving DecidableEq

/-- Result record of `calculateDamage`. -/
structure DamageResult where
  damage : ℤ
  effectiveness : ℚ
  isCritical : Bool
  message : String
deriving DecidableEq

/-- The random draws consumed by one reducer step: the critical-hit
Bernoulli outcome (`Math.random() < 0.0625`) and the jitter factor
`0.85 + Math.random() * 0.15`. -/
structure Rng where
  crit : Bool
  rand : ℚ
deriving DecidableEq

/-- JavaScript `x || d` for the numeric fields we embed (`0` is falsy). -/
def jsOrQ (x d : ℚ) : ℚ := if x = 0 then d else x

/-- JavaScript `x || d` for string fields (`""` is falsy). -/
def jsOrS (x d : String) : String := if x = "" then d else x

/-- ASCII lower-casing, modelling `String.prototype.toLowerCase()` on the
ASCII type names that occur in this code base. -/
def toLowerCase (s : String) : String := ⟨s.data.map Char.toLower⟩

/-- The nested `typeChart` object of `getTypeEffectiveness`, as an
association list `attack type ↦ (defender type ↦ multiplier)`. -/
def typeChart : List (String × List (String × ℚ)) :=
  [ ("normal", [("rock", 0.5), ("ghost", 0), ("steel", 0.5)]),
    ("fire", [("fire", 0.5), ("water", 0.5), ("grass", 2), ("ice", 2),
      ("bug", 2), ("rock", 0.5), ("dragon", 0.5), ("steel", 2)]),
    ("water", [("fire", 2), ("water", 0.5), ("grass", 0.5), ("ground", 2),
      ("rock", 2), ("dragon", 0.5)]),
    ("grass", [("fire", 0.5), ("water", 2), ("grass", 0.5), ("poison", 0.5),
      ("ground", 2), ("flying", 0.5), ("bug", 0.5), ("rock", 2),
      ("dragon", 0.5), ("steel", 0.5)]),
    ("electric", [("water", 2), ("electric", 0.5), ("grass", 0.5),
      ("ground", 0), ("flying", 2), ("dragon", 0.5)]),
    ("ice", [("fire", 0.5), ("water", 0.5), ("grass", 2), ("ice", 0.5),
      ("ground", 2), ("flying", 2), ("dragon", 2), ("steel", 0.5)]),
    ("fighting", [("normal", 2), ("ice", 2), ("poison", 0.5),
      ("flying", 0.5), ("psychic", 0.5), ("bug", 0.5), ("rock", 2),
      ("ghost", 0), ("dark", 2), ("steel", 2), ("fairy", 0.5)]),
    ("poison", [("grass", 2), ("poison", 0.5), ("ground", 0.5),
      ("rock", 0.5), ("ghost", 0.5), ("steel", 0), ("fairy", 2)]),
    ("ground", [("fire", 2), ("electric", 2), ("grass", 0.5),
      ("poison", 2), ("flying", 0), ("bug", 0.5), ("rock", 2),
      ("steel", 2)]),
    ("flying", [("electric", 0.5), ("grass", 2), ("fighting", 2),
      ("bug", 2), ("rock", 0.5), ("steel", 0.5)]),
    ("psychic", [("fighting", 2), ("poison", 2), ("psychic", 0.5),
      ("dark", 0), ("steel", 0.5)]),
    ("bug", [("fire", 0.5), ("grass", 2), ("fighting", 0.5),
      ("poison", 0.5), ("flying", 0.5), ("psychic", 2), ("ghost", 0.5),
      ("dark", 2), ("steel", 0.5), ("fairy", 0.5)]),
    ("rock", [("fire", 2), ("ice", 2), ("fighting", 0.5), ("ground", 0.5),
      ("flying", 2), ("bug", 2), ("steel", 0.5)]),
    ("ghost", [("normal", 0), ("psychic", 2), ("ghost", 2), ("dark", 0.5)]),
    ("dragon", [("dragon", 2), ("steel", 0.5), ("fairy", 0)]),
    ("dark", [("fighting", 0.5), ("psychic", 2), ("ghost", 2),
      ("dark", 0.5), ("fairy", 0.5)]),
    ("steel", [("fire", 0.5), ("water", 0.5), ("electric", 0.5),
      ("ice", 2), ("rock", 2), ("steel", 0.5), ("fairy", 2)]),
    ("fairy", [("fighting", 2), ("poison", 0.5), ("bug", 1),
      ("dragon", 2), ("dark", 2), ("steel", 0.5)]) ]

/-- `getTypeEffectiveness(attackType, defenderType)`.  A missing (falsy)
argument yields the neutral multiplier `1`; both arguments are
lower-cased; a pair absent from the chart yields `1`. -/
def getTypeEffectiveness (attackType defenderType : Option String) : ℚ :=
  match attackType, defenderType with
  | some a, some d =>
    if a = "" ∨ d = "" then 1
    else
      let attack := toLowerCase a
      let defender := toLowerCase d
      match typeChart.lookup attack with
      | some row =>
        match row.lookup defender with
        | some m => m
        | none => 1
      | none => 1
  | _, _ => 1

/-- The 18 elemental type names of the closed enumeration. -/
def pokemonTypes : List String :=
  ["normal", "fire", "water", "grass", "electric", "ice", "fighting",
   "poison", "ground", "flying", "psychic", "bug", "rock", "ghost",
   "dragon", "dark", "steel", "fairy"]

/-- The admissible effectiveness multipliers. -/
def multiplierValues : List ℚ := [0, 0.5, 1, 2]

/-- The `movesByType` table of `generateDefaultMove`:
`type ↦ (name, power)`. -/
def movesByType : List (String × String × ℚ) :=
  [ ("normal", "Tackle", 40), ("fire", "Ember", 40),
    ("water", "Water Gun", 40), ("grass", "Vine Whip", 45),
    ("electric", "Thunder Shock", 40), ("ice", "Ice Shard", 40),
    ("fighting", "Karate Chop", 50), ("poison", "Poison Sting", 15),
    ("ground", "Sand Attack", 20), ("flying", "Gust", 40),
    ("psychic", "Confusion", 50), ("bug", "Bug Bite", 60),
    ("rock", "Rock Throw", 50), ("ghost", "Lick", 30),
    ("dragon", "Dragon Rage", 40), ("dark", "Bite", 60),
    ("steel", "Metal Claw", 50), ("fairy", "Fairy Wind", 40) ]

/-- `generateDefaultMove(type, level)`: signature move per type
(falling back to the `normal` entry), power scaled by
`Math.floor(power + level / 10)`. -/
def generateDefaultMove (type : String) (level : ℚ) : Move :=
  let normalizedType := toLowerCase type
  let mv := (movesByType.lookup normalizedType).getD ("Tackle", 40)
  { name := mv.1
    power := ((⌊mv.2 + level / 10⌋ : ℤ) : ℚ)
    type := normalizedType }

/-- `calculateDamage(attacker, defender, move)`.  The two random draws of
the source (`Math.random() < 0.0625` and `0.85 + Math.random() * 0.15`)
are passed in as `crit` and `rand`.  If any required input is `null` the
source returns the fixed miss result. -/
def calculateDamage (attacker defender : Option Pokemon)
    (move : Option Move) (crit : Bool) (rand : ℚ) : DamageResult :=
  match attacker, defender, move with
  | some attacker, some defender, some move =>
    let attackerLevel := jsOrQ attacker.level 1
    let attackType := jsOrS move.type (jsOrS attacker.type "normal")
    let movePower := jsOrQ move.power ((⌊(5 : ℚ) + attackerLevel * 1.5⌋ : ℤ) : ℚ)
    let attackStat := jsOrQ attacker.stats.attack (attackerLevel * 2 + 5)
    let defenseStat := jsOrQ defender.stats.defense (defender.level * 2 + 5)
    let baseDamage : ℤ :=
      ⌊((2 * attackerLevel) / 5 + 2) * movePower * (attackStat / defenseStat)
        / 50 + 2⌋
    let effectiveness :=
      getTypeEffectiveness (some attackType) (some (jsOrS defender.type "normal"))
    let isCritical := crit
    let critDamage : ℤ :=
      if isCritical then ⌊(baseDamage : ℚ) * 1.5⌋ else baseDamage
    let typedDamage : ℤ :=
      if effectiveness > 1 then ⌊(critDamage : ℚ) * (effectiveness * 1.3)⌋
      else if effectiveness < 1 then ⌊(critDamage : ℚ) * effectiveness⌋
      else critDamage
    let finalDamage : ℤ := max 1 ⌊(typedDamage : ℚ) * rand⌋
    let message :=
      if effectiveness > 1.5 then
        "It\x27s super effective! " ++ attackType ++
          "-type moves are strong against " ++ defender.type ++
          "-type Pokémon!"
      else if effectiveness > 1 then
        "It\x27s effective! " ++ attackType ++
          "-type moves work well against " ++ defender.type ++
          "-type Pokémon."
      else if effectiveness < 0.5 then
        "It\x27s not very effective... " ++ attackType ++
          "-type moves are weak against " ++ defender.type ++
          "-type Pokémon."
      else if effectiveness < 1 then
        "It\x27s somewhat ineffective. " ++ attackType ++
          "-type moves aren\x27t ideal against " ++ defender.type ++
          "-type Pokémon."
      else if effectiveness = 0 then
        "It had no effect... " ++ defender.type ++
          "-type Pokémon are immune to " ++ attackType ++ "-type moves!"
      else ""
    let message :=
      if isCritical then
        if message = "" then "Critical hit!" else "Critical hit! " ++ message
      else message
    { damage := finalDamage
      effectiveness := effectiveness
      isCritical := isCritical
      message := message }
  | _, _, _ =>
    { damage := 0, effectiveness := 1, isCritical := false,
      message := "Attack missed!" }

example : getTypeEffectiveness (some "electric") (some "ground") = 0 := by decide
example : getTypeEffectiveness (some "Fire") (some "grass") = 2 := by decide
example : getTypeEffectiveness (some "normal") (some "fire") = 1 := by decide

/-! ## The battle reducer (`BattleReducer.js`) -/

/-- The `BATTLE_STATES` constants. -/
inductive BattleStates where
  | idle | starting | selectPokemon | playerTurn | selectingMove
  | attacking | enemyTurn | victory | defeat | fleeing | usingItem
  | changingPokemon | useItem
deriving DecidableEq

/-- The reducer's state object. -/
structure BattleState where
  enemy : Option Pokemon
  playerPokemon : Option Pokemon
  playerRoster : List Pokemon
  battleState : BattleStates
  battleLog : List String
  isPlayerTurn : Bool
  playerMove : Option Move
  enemyMove : Option Move
  activeItem : Option Item
  items : List Item
deriving DecidableEq

/-- `initialBattleState`. -/
def initialBattleState : BattleState :=
  { enemy := none, playerPokemon := none, playerRoster := [],
    battleState := .idle, battleLog := [], isPlayerTurn := true,
    playerMove := none, enemyMove := none, activeItem := none, items := [] }

/-- Dispatched actions.  Each `BATTLE_ACTIONS` constant becomes one
constructor carrying the payload the dispatch sites attach; `other`
stands for any action whose `type` string is not in `BATTLE_ACTIONS`
(the reducer's `default` case, e.g. the `FINISH_BATTLE` dispatch). -/
inductive BattleAction where
  | startBattle (enemy : Pokemon)
  | selectPokemon (pokemon : Pokemon)
  | attack (move : Move)
  | attackComplete
  | enemyAttack
  | enemyAttackComplete
  | changePokemon (pokemon : Option Pokemon)
  | useItem (item : Item)
  | updatePlayerPokemon (pokemon : Pokemon)
  | flee
  | battleEnd
  | updateEnemy (updates : Pokemon → Pokemon)
  | updateBattleLog (message : String)
  | updateRoster (roster : List Pokemon)
  | updateItems (items : List Item)
  | other (type : String)

/-- `isEnemyDefeated(enemy)`: true if the enemy is `null` or at 0 HP. -/
def isEnemyDefeated (enemy : Option Pokemon) : Bool :=
  match enemy with
  | none => true
  | some e => decide (e.currentHp ≤ 0)

/-- `isPlayerDefeated(playerPokemon)`. -/
def isPlayerDefeated (playerPokemon : Option Pokemon) : Bool :=
  match playerPokemon with
  | none => true
  | some p => decide (p.currentHp ≤ 0)

/-- `isAllPlayerPokemonDefeated(roster)`: a `null`/empty roster counts as
defeated; otherwise every member must be at 0 HP. -/
def isAllPlayerPokemonDefeated (roster : List Pokemon) : Bool :=
  match roster with
  | [] => true
  | _ => roster.all fun pokemon => decide (pokemon.currentHp ≤ 0)

/-- `battleReducer(state, action)`.  A JavaScript `TypeError` (a property
read on `null`) is modelled as `Except.error`; every non-throwing branch
is `Except.ok`.  The random draws used by `calculateDamage` come from
`rng`. -/
def battleReducer (rng : Rng) (state : BattleState) (action : BattleAction) :
    Except String BattleState :=
  match action with
  | .startBattle enemy =>
    .ok { state with
      enemy := some enemy
      battleState := .selectPokemon
      battleLog := ["A wild " ++ enemy.name ++ " appeared!"]
      isPlayerTurn := true }
  | .selectPokemon pokemon =>
    .ok { state with
      playerPokemon := some pokemon
      battleState := .playerTurn
      battleLog := state.battleLog ++ ["Go " ++ pokemon.name ++ "!"] }
  | .attack move =>
    match state.playerPokemon with
    | none => .error "TypeError: state.playerPokemon is null"
    | some pp =>
      .ok { state with
        battleState := .attacking
        battleLog := state.battleLog ++
          [pp.name ++ " used " ++ move.name ++ "!"]
        playerMove := some move }
  | .attackComplete =>
    match state.enemy with
    | none => .error "TypeError: state.enemy is null"
    | some en =>
      match (match state.playerMove with
             | some m => Except.ok m
             | none =>
               match state.playerPokemon with
               | some pp => Except.ok { name := "", type := pp.type, power := 40 }
               | none => Except.error "TypeError: state.playerPokemon is null") with
      | .error e => .error e
      | .ok mv =>
        let damageResult :=
          calculateDamage state.playerPokemon (some en) (some mv) rng.crit rng.rand
        let updatedEnemy :=
          { en with currentHp := max 0 (en.currentHp - (damageResult.damage : ℚ))
                    isHit := true }
        if isEnemyDefeated (some updatedEnemy) then
          match state.playerPokemon with
          | none => .error "TypeError: state.playerPokemon is null"
          | some pp =>
            .ok { state with
              enemy := some updatedEnemy
              battleState := .victory
              battleLog := state.battleLog ++
                ["It did " ++ toString damageResult.damage ++ " damage!",
                 damageResult.message,
                 "Enemy " ++ en.name ++ " fainted!",
                 pp.name ++ " gained " ++ toString (en.level * 2) ++ " XP!"] }
        else
          .ok { state with
            enemy := some updatedEnemy
            battleState := .enemyTurn
            battleLog := state.battleLog ++
              ["It did " ++ toString damageResult.damage ++ " damage!",
               damageResult.message]
            isPlayerTurn := false }
  | .enemyAttack =>
    match state.enemy with
    | none => .error "TypeError: state.enemy is null"
    | some en =>
      let enemyMove :=
        generateDefaultMove (jsOrS en.type "normal") (jsOrQ en.level 5)
      .ok { state with
        battleState := .enemyTurn
        activeItem := none
        battleLog := state.battleLog ++
          ["Enemy " ++ en.name ++ " used " ++ enemyMove.name ++ "!"]
        enemyMove := some enemyMove }
  | .enemyAttackComplete =>
    match (match state.enemyMove with
           | some m => Except.ok m
           | none =>
             match state.enemy with
             | some en => Except.ok { name := "", type := en.type, power := 40 }
             | none => Except.error "TypeError: state.enemy is null") with
    | .error e => .error e
    | .ok mv =>
      match state.playerPokemon with
      | none => .error "TypeError: state.playerPokemon is null"
      | some pp =>
        let damageResult :=
          calculateDamage state.enemy (some pp) (some mv) rng.crit rng.rand
        let updatedPlayerPokemon :=
          { pp with currentHp := max 0 (pp.currentHp - (damageResult.damage : ℚ))
                    isHit := true }
        if isPlayerDefeated (some updatedPlayerPokemon) then
          if isAllPlayerPokemonDefeated state.playerRoster then
            .ok { state with
              playerPokemon := some updatedPlayerPokemon
              battleState := .defeat
              battleLog := state.battleLog ++
                ["It did " ++ toString damageResult.damage ++ " damage!",
                 damageResult.message,
                 pp.name ++ " fainted!",
                 "You have no usable Pokémon left!"] }
          else
            .ok { state with
              playerPokemon := some updatedPlayerPokemon
              battleState := .changingPokemon
              battleLog := state.battleLog ++
                ["It did " ++ toString damageResult.damage ++ " damage!",
                 damageResult.message,
                 pp.name ++ " fainted!",
                 "Choose another Pokémon!"]
              isPlayerTurn := true }
        else
          .ok { state with
            playerPokemon := some updatedPlayerPokemon
            battleState := .playerTurn
            battleLog := state.battleLog ++
              ["It did " ++ toString damageResult.damage ++ " damage!",
               damageResult.message]
            isPlayerTurn := true }
  | .changePokemon pokemon =>
    match pokemon with
    | some pk =>
      .ok { state with
        playerPokemon := some pk
        battleState := .enemyTurn
        battleLog := state.battleLog ++
          [(match state.playerPokemon with
            | some pp => pp.name ++ ", return!"
            | none => "Come back!"),
           "Go " ++ pk.name ++ "!"]
        isPlayerTurn := false }
    | none =>
      match state.playerPokemon with
      | none => .error "TypeError: state.playerPokemon is null"
      | some pp =>
        .ok { state with
          battleState := .changingPokemon
          battleLog := state.battleLog ++
            [pp.name ++ ", return!", "Choose another Pokémon!"] }
  | .useItem item =>
    .ok { state with battleState := .useItem, activeItem := some item }
  | .flee =>
    .ok { state with
      battleState := .fleeing
      battleLog := state.battleLog ++ ["Got away safely!"] }
  | .battleEnd =>
    .ok { state with
      enemy := none
      playerPokemon := none
      battleState := .idle
      battleLog := []
      isPlayerTurn := true }
  | .updateEnemy updates =>
    .ok { state with enemy := state.enemy.map updates }
  | .updateBattleLog message =>
    .ok { state with battleLog := state.battleLog ++ [message] }
  | .updatePlayerPokemon pokemon =>
    .ok { state with playerPokemon := some pokemon }
  | .updateRoster roster =>
    .ok { state with playerRoster := roster }
  | .updateItems items =>
    .ok { state with items := items }
  | .other _ => .ok state

/-! ## The battle context layer (`BattleContext` in `src/context/context.js`)
and the switch guard of `BattleControls.jsx` -/

/-- Applies a list of dispatched actions in order (React reduces queued
dispatches sequentially through the reducer). -/
def applyActions (rng : Rng) : BattleState → List BattleAction → Except String BattleState
  | state, [] => .ok state
  | state, a :: rest =>
    match battleReducer rng state a with
    | .ok state1 => applyActions rng state1 rest
    | .error e => .error e

/-- The victory-progression step of `handleVictory`: add the XP reward,
then a single `if experience >= level * 100` level-up check that bumps
the level, subtracts the threshold, scales the four base stats by 1.1
(floored) and refills `currentHp` to the new stat `hp`. -/
def handleVictory (pokemon : Pokemon) (xpGained : ℚ) : Pokemon :=
  let updated := { pokemon with xp := pokemon.xp + xpGained }
  let xpNeeded := updated.level * 100
  if updated.xp ≥ xpNeeded then
    let newStats : Stats :=
      { hp := ((⌊updated.stats.hp * (1.1 : ℚ)⌋ : ℤ) : ℚ)
        attack := ((⌊updated.stats.attack * (1.1 : ℚ)⌋ : ℤ) : ℚ)
        defense := ((⌊updated.stats.defense * (1.1 : ℚ)⌋ : ℤ) : ℚ)
        speed := ((⌊updated.stats.speed * (1.1 : ℚ)⌋ : ℤ) : ℚ) }
    { updated with
      level := updated.level + 1
      xp := updated.xp - xpNeeded
      stats := newStats
      currentHp := newStats.hp }
  else updated

/-- Reads the named stat of a `stats` object (`stats[statName] || 0`;
an absent key reads as `undefined`, hence `0`). -/
def Stats.getStat (s : Stats) (statName : String) : ℚ :=
  if statName = "hp" then s.hp
  else if statName = "attack" then s.attack
  else if statName = "defense" then s.defense
  else if statName = "speed" then s.speed
  else 0

/-- Writes the named stat of a `stats` object (`{...stats, [statName]: v}`;
an unknown key would only add an extra key the engine never reads, so it
is modelled as a no-op). -/
def Stats.setStat (s : Stats) (statName : String) (v : ℚ) : Stats :=
  if statName = "hp" then { s with hp := v }
  else if statName = "attack" then { s with attack := v }
  else if statName = "defense" then { s with defense := v }
  else if statName = "speed" then { s with speed := v }
  else s

/-- The synchronous dispatch sequence performed by the battle context's
`useItem(item)`: the initial log line, the effect-specific
`UPDATE_PLAYER_POKEMON` dispatch, the result-message log line, and the
`USE_ITEM` dispatch.  The source also builds a `newItems` array with the
quantity decremented but never dispatches or stores it, so no action in
this list touches `state.items`.  (The delayed `ENEMY_ATTACK` timer and
the `updatePokemonStats` roster callback are outside the reducer state.)
A `null` `state.playerPokemon` would make every effect branch throw. -/
def useItemActions (state : BattleState) (item : Item) :
    Except String (List BattleAction) :=
  if item.battleUsable = false then
    .ok [.updateBattleLog (item.name ++ " cannot be used in battle!")]
  else
    match state.playerPokemon with
    | none => .error "TypeError: state.playerPokemon is null"
    | some pp =>
      let effect :
          List BattleAction × String :=
        if item.effect = "heal" ∨ item.effect = "fullheal" then
          if pp.currentHp ≥ pp.stats.hp then
            ([], pp.name ++ "\x27s HP is already full!")
          else
            let healAmount :=
              if item.effect = "fullheal" then pp.stats.hp - pp.currentHp
              else min item.amount (pp.stats.hp - pp.currentHp)
            let newHp :=
              if item.effect = "fullheal" then pp.stats.hp
              else pp.currentHp + healAmount
            let updatedPokemon := { pp with currentHp := newHp }
            ([.updatePlayerPokemon updatedPokemon],
             if item.effect = "fullheal" then
               pp.name ++ " fully recovered " ++ toString healAmount ++ " HP!"
             else pp.name ++ " recovered " ++ toString healAmount ++ " HP!")
        else if item.effect = "boost" then
          let statName := jsOrS item.stat "attack"
          let currentStat := pp.stats.getStat statName
          let boostedStat := ((⌊currentStat * (1 + item.amount)⌋ : ℤ) : ℚ)
          let boostedPokemon :=
            { pp with stats := pp.stats.setStat statName boostedStat }
          ([.updatePlayerPokemon boostedPokemon],
           pp.name ++ "\x27s " ++ statName ++ " increased by " ++
             toString (item.amount * 100) ++ "%!")
        else if item.effect = "status" then
          ([], pp.name ++ " was cured of " ++ item.statusEffect ++ "!")
        else
          ([], "Used " ++ item.name ++ " on " ++ pp.name ++ "!")
      .ok ([.updateBattleLog ("Used " ++ item.name ++ "!")] ++
        effect.1 ++ [.updateBattleLog effect.2, .useItem item])

/-- The battle context's `useItem(item)`: resolves the dispatch sequence
and folds it through the reducer. -/
def useItem (rng : Rng) (state : BattleState) (item : Item) :
    Except String BattleState :=
  match useItemActions state item with
  | .ok actions => applyActions rng state actions
  | .error e => .error e

/-- The Pokémon-switch attempt as wired in `BattleControls.jsx`: the
button's `onClick` only calls `onChangePokemon(mon)` (the context's
`changePokemon`, which dispatches `CHANGE_POKEMON`) when
`mon.id !== playerPokemon?.id && mon.currentHp > 0`; a fainted target
only shows a toast and the active target does nothing, so in both
rejection cases no action is dispatched. -/
def onChangePokemonClick (rng : Rng) (state : BattleState) (mon : Pokemon) :
    Except String BattleState :=
  let differentId : Bool :=
    match state.playerPokemon with
    | some pp => mon.id != pp.id
    | none => true
  if differentId && decide (mon.currentHp > 0) then
    battleReducer rng state (.changePokemon (some mon))
  else
    .ok state

/-! ## Sample data used in witnesses and counterexamples -/

/-- Sample player creature. -/
def pikachu : Pokemon :=
  { id := "p1", name := "Pikachu", type := "electric", level := 5, xp := 0,
    currentHp := 50, stats := { hp := 50, attack := 20, defense := 10, speed := 7 } }

/-- Sample enemy creature of the `ground` type (immune to `electric`). -/
def sandshrew : Pokemon :=
  { id := "e1", name := "Sandshrew", type := "ground", level := 5, xp := 0,
    currentHp := 50, stats := { hp := 50, attack := 18, defense := 12, speed := 8 } }

/-- Sample backup roster member. -/
def bulbasaur : Pokemon :=
  { id := "p2", name := "Bulbasaur", type := "grass", level := 5, xp := 0,
    currentHp := 45, stats := { hp := 45, attack := 16, defense := 14, speed := 9 } }

/-- Sample electric move. -/
def thunderShock : Move := { name := "Thunder Shock", type := "electric", power := 40 }

/-- A fixed pair of random draws (no critical hit, jitter 0.9). -/
def rng0 : Rng := { crit := false, rand := 0.9 }

/-- A mid-battle state during the enemy's turn. -/
def sEnemyTurn : BattleState :=
  { enemy := some sandshrew, playerPokemon := some pikachu,
    playerRoster := [pikachu, bulbasaur], battleState := .enemyTurn,
    battleLog := ["A wild Sandshrew appeared!"], isPlayerTurn := false,
    playerMove := none, enemyMove := none, activeItem := none, items := [] }

/-- A state during the player's turn. -/
def sPlayerTurn : BattleState :=
  { sEnemyTurn with battleState := .playerTurn, isPlayerTurn := true }

/-- The active creature after fainting. -/
def pikachuFainted : Pokemon := { pikachu with currentHp := 0 }

/-- The mandatory-switch state right after the active creature fainted. -/
def sChangingPokemon : BattleState :=
  { enemy := some sandshrew, playerPokemon := some pikachuFainted,
    playerRoster := [pikachuFainted, bulbasaur],
    battleState := .changingPokemon,
    battleLog := ["A wild Sandshrew appeared!", "Pikachu fainted!"],
    isPlayerTurn := true, playerMove := none, enemyMove := none,
    activeItem := none, items := [] }

/-! ## Claims -/

unseal Rat.ofScientific in
/-- C3: for every pair of the 18 elements `getTypeEffectiveness` returns a
defined multiplier in `{0, 0.5, 1, 2}`; any pair not listed in the type
chart returns the neutral multiplier `1`; and a missing argument returns
`1`. -/
theorem getTypeEffectiveness_total_and_bounded :
    (∀ a ∈ pokemonTypes, ∀ d ∈ pokemonTypes,
      getTypeEffectiveness (some a) (some d) ∈ multiplierValues) ∧
    (∀ a d : String,
      (typeChart.lookup (toLowerCase a)).bind
        (fun row => row.lookup (toLowerCase d)) = none →
      getTypeEffectiveness (some a) (some d) = 1) ∧
    (∀ x : Option String,
      getTypeEffectiveness none x = 1 ∧ getTypeEffectiveness x none = 1) := by
  refine ⟨?_, ?_, ?_⟩
  · decide
  · intro a d h
    simp only [getTypeEffectiveness]
    by_cases he : a = "" ∨ d = ""
    · simp [he]
    · simp only [if_neg he]
      rcases hrow : typeChart.lookup (toLowerCase a) with _ | row
      · simp [hrow]
      · rw [hrow] at h
        have h2 : row.lookup (toLowerCase d) = none := h
        simp [hrow, h2]
  · intro x
    cases x <;> exact ⟨rfl, rfl⟩

/-- Closed witness for C3. -/
theorem getTypeEffectiveness_total_and_bounded_witness :
    getTypeEffectiveness (some "fire") (some "grass") ∈ multiplierValues ∧
    getTypeEffectiveness (some "normal") (some "fire") = 1 ∧
    getTypeEffectiveness none none = 1 :=
  ⟨getTypeEffectiveness_total_and_bounded.1 "fire" (by decide) "grass" (by decide),
   getTypeEffectiveness_total_and_bounded.2.1 "normal" "fire" (by decide),
   (getTypeEffectiveness_total_and_bounded.2.2 none).1⟩

/-- C2 counterexample: dispatching `ATTACK` while the battle state is
`enemyTurn` is not a no-op — the reducer still switches the phase to
`attacking` and records the move, because no handler checks the current
phase. -/
theorem attack_in_enemyTurn_changes_phase :
    sEnemyTurn.battleState = BattleStates.enemyTurn ∧
    (battleReducer rng0 sEnemyTurn (.attack thunderShock)).map
      (fun s => s.battleState) = .ok BattleStates.attacking ∧
    (battleReducer rng0 sEnemyTurn (.attack thunderShock)).map
      (fun s => s.playerMove) = .ok (some thunderShock) :=
  ⟨rfl, rfl, rfl⟩

/-- C2 (amended): the reducer does not itself restrict handlers to their
legal phases (that guarding lives in the UI callers); the only actions it
rejects are those whose type string is not in `BATTLE_ACTIONS`, which hit
the `default` case and leave the state unchanged. -/
theorem battleReducer_unknown_action_noop :
    ∀ (rng : Rng) (s : BattleState) (t : String),
      battleReducer rng s (.other t) = .ok s :=
  fun _ _ _ => rfl

/-- C7 counterexample: even the mandatory switch after a faint (from the
`changingPokemon` state) transitions to `enemyTurn` and hands the turn to
the opponent, so the forced re-selection costs a turn like a voluntary
switch. -/
theorem mandatory_switch_still_costs_turn :
    sChangingPokemon.battleState = BattleStates.changingPokemon ∧
    (battleReducer rng0 sChangingPokemon (.changePokemon (some bulbasaur))).map
      (fun s => s.battleState) = .ok BattleStates.enemyTurn ∧
    (battleReducer rng0 sChangingPokemon (.changePokemon (some bulbasaur))).map
      (fun s => s.isPlayerTurn) = .ok false :=
  ⟨rfl, rfl, rfl⟩

/-- C7 (amended): `CHANGE_POKEMON` with a target always costs the turn —
from any state (voluntary switch in `playerTurn` or mandatory switch in
`changingPokemon`) the reducer installs the target and transitions to
`enemyTurn` with `isPlayerTurn := false`. -/
theorem changePokemon_always_costs_turn :
    ∀ (rng : Rng) (s : BattleState) (mon : Pokemon),
      ∃ s', battleReducer rng s (.changePokemon (some mon)) = .ok s' ∧
        s'.battleState = BattleStates.enemyTurn ∧
        s'.isPlayerTurn = false ∧
        s'.playerPokemon = some mon :=
  fun _ _ _ => ⟨_, rfl, rfl, rfl, rfl⟩

/-- C9: attempting to switch to the currently active creature or to a
fainted creature is rejected by the click guard and dispatches nothing:
the battle state (phase, combatants, turn owner, roster, log) is exactly
the same afterwards. -/
theorem changePokemon_rejected_no_state_change :
    ∀ (rng : Rng) (s : BattleState) (mon : Pokemon),
      (mon.currentHp ≤ 0 ∨ ∃ pp, s.playerPokemon = some pp ∧ mon.id = pp.id) →
      onChangePokemonClick rng s mon = .ok s := by
  intro rng s mon h
  unfold onChangePokemonClick
  rcases h with hf | ⟨pp, hpp, hid⟩
  · have hc : decide (mon.currentHp > 0) = false :=
      decide_eq_false (not_lt.mpr hf)
    simp [hc]
  · rw [hpp]
    have hb : (mon.id != pp.id) = false := by
      simp [bne_eq_false_iff_eq, hid]
    simp [hb]

/-- Closed witness for C9: switching to the already-active Pikachu is a
no-op. -/
theorem changePokemon_rejected_no_state_change_witness :
    onChangePokemonClick rng0 sPlayerTurn pikachu = .ok sPlayerTurn :=
  changePokemon_rejected_no_state_change rng0 sPlayerTurn pikachu
    (.inr ⟨pikachu, rfl, rfl⟩)

/-- C1 (behaviour at an immune matchup): for every critical-hit draw and
every jitter factor, attacking the `ground`-type defender with an
`electric` move yields effectiveness `0` but final damage `1`, not `0` —
the `Math.max(1, ...)` clamp is applied unconditionally, so a type
immunity never zeroes out the damage. -/
theorem calculateDamage_immunity_still_deals_one_damage :
    ∀ (crit : Bool) (rand : ℚ),
      (calculateDamage (some pikachu) (some sandshrew) (some thunderShock)
        crit rand).damage = 1 ∧
      (calculateDamage (some pikachu) (some sandshrew) (some thunderShock)
        crit rand).effectiveness = 0 := by
  intro crit rand
  have heff : getTypeEffectiveness
      (some (jsOrS thunderShock.type (jsOrS pikachu.type "normal")))
      (some (jsOrS sandshrew.type "normal")) = 0 := by decide
  constructor
  · simp only [calculateDamage, heff]
    norm_num
  · simp only [calculateDamage, heff]

/-- A level-1 creature with 0 XP (its stats are never forced in the
counterexample). -/
def charmander : Pokemon :=
  { id := "p3", name := "Charmander", type := "fire", level := 1, xp := 0,
    currentHp := 39, stats := { hp := 39, attack := 12, defense := 10, speed := 13 } }

unseal Rat.add Rat.sub Rat.mul Rat.ofScientific in
/-- C5 counterexample: a level-1 creature rewarded 350 XP ends at level 2
with 250 XP — although `250 ≥ 2 * 100`, no second level-up is applied, so
the level-up step is a single `if`, not a `while` loop. -/
theorem handleVictory_no_cascade_counterexample :
    (handleVictory charmander 350).level = 2 ∧
    (handleVictory charmander 350).xp = 250 ∧
    ¬ ((handleVictory charmander 350).xp <
        (handleVictory charmander 350).level * 100) := by decide

/-- C5 (amended): one application of the victory progression performs at
most one level-up: when the new experience reaches `level * 100` the
level increments by exactly one, that single threshold is subtracted,
each base stat is scaled by 1.1 and floored, and `currentHp` refills to
the new `stats.hp`; otherwise only the experience is updated.  Leftover
experience may still exceed the next threshold (no cascading). -/
theorem handleVictory_single_level_up_step :
    ∀ (p : Pokemon) (g : ℚ),
      (p.xp + g ≥ p.level * 100 →
        (handleVictory p g).level = p.level + 1 ∧
        (handleVictory p g).xp = p.xp + g - p.level * 100 ∧
        (handleVictory p g).stats.hp = ((⌊p.stats.hp * (1.1 : ℚ)⌋ : ℤ) : ℚ) ∧
        (handleVictory p g).stats.attack = ((⌊p.stats.attack * (1.1 : ℚ)⌋ : ℤ) : ℚ) ∧
        (handleVictory p g).stats.defense = ((⌊p.stats.defense * (1.1 : ℚ)⌋ : ℤ) : ℚ) ∧
        (handleVictory p g).stats.speed = ((⌊p.stats.speed * (1.1 : ℚ)⌋ : ℤ) : ℚ) ∧
        (handleVictory p g).currentHp = (handleVictory p g).stats.hp) ∧
      (p.xp + g < p.level * 100 →
        handleVictory p g = { p with xp := p.xp + g }) := by
  intro p g
  constructor
  · intro h
    simp [handleVictory, if_pos h]
  · intro h
    simp [handleVictory, if_neg (not_le.mpr h)]

/-- Closed witness for C5 (amended): both the level-up branch (350 XP to
a level-1 creature) and the no-level-up branch (20 XP). -/
theorem handleVictory_single_level_up_step_witness :
    ((handleVictory charmander 350).level = charmander.level + 1 ∧
      (handleVictory charmander 350).xp =
        charmander.xp + 350 - charmander.level * 100 ∧
      (handleVictory charmander 350).stats.hp =
        ((⌊charmander.stats.hp * (1.1 : ℚ)⌋ : ℤ) : ℚ) ∧
      (handleVictory charmander 350).stats.attack =
        ((⌊charmander.stats.attack * (1.1 : ℚ)⌋ : ℤ) : ℚ) ∧
      (handleVictory charmander 350).stats.defense =
        ((⌊charmander.stats.defense * (1.1 : ℚ)⌋ : ℤ) : ℚ) ∧
      (handleVictory charmander 350).stats.speed =
        ((⌊charmander.stats.speed * (1.1 : ℚ)⌋ : ℤ) : ℚ) ∧
      (handleVictory charmander 350).currentHp =
        (handleVictory charmander 350).stats.hp) ∧
    handleVictory charmander 20 = { charmander with xp := charmander.xp + 20 } :=
  ⟨(handleVictory_single_level_up_step charmander 350).1 (by norm_num [charmander]),
   (handleVictory_single_level_up_step charmander 20).2 (by norm_num [charmander])⟩

/-- A battle-usable healing potion with quantity 2. -/
def potion : Item :=
  { id := "potion", name := "Potion", effect := "heal", amount := 20,
    battleUsable := true, quantity := 2, price := 10 }

/-- The active creature wounded to 30/50 HP. -/
def pikachuWounded : Pokemon := { pikachu with currentHp := 30 }

/-- A player-turn state holding one potion. -/
def sItemTurn : BattleState :=
  { enemy := some sandshrew, playerPokemon := some pikachuWounded,
    playerRoster := [pikachuWounded], battleState := .playerTurn,
    battleLog := [], isPlayerTurn := true, playerMove := none,
    enemyMove := none, activeItem := none, items := [potion] }

unseal Rat.add Rat.sub Rat.mul Rat.ofScientific in
/-- C6 (battle path): using the potion in battle heals the active
creature to full (30 + 20 → 50, clamped) but leaves `state.items`
untouched — the decremented `newItems` array the source builds is never
dispatched, so the owned quantity stays 2 instead of dropping to 1. -/
theorem useItem_battle_does_not_consume_quantity :
    (useItem rng0 sItemTurn potion).toOption.map (fun s => s.items) =
      some [potion] ∧
    (useItem rng0 sItemTurn potion).toOption.map
      (fun s => s.playerPokemon.map (fun p => p.currentHp)) =
      some (some 50) ∧
    potion.quantity = 2 := by decide

/-- C8: any state produced by `BATTLE_END` has its enemy cleared to
`null`, so a late `ENEMY_ATTACK` timer firing against it makes the
reducer read `state.enemy.type` on `null` and throw a `TypeError`
instead of being a no-op. -/
theorem enemyAttack_after_battleEnd_errors :
    ∀ (rng rng2 : Rng) (s s' : BattleState),
      battleReducer rng s .battleEnd = .ok s' →
      ∃ e, battleReducer rng2 s' .enemyAttack = .error e := by
  intro rng rng2 s s' h
  simp only [battleReducer, Except.ok.injEq] at h
  subst h
  exact ⟨_, rfl⟩

/-- Closed witness for C8: the concrete post-`BATTLE_END` state. -/
theorem enemyAttack_after_battleEnd_errors_witness :
    ∃ e, battleReducer rng0
      { sEnemyTurn with
        enemy := none
        playerPokemon := none
        battleState := .idle
        battleLog := []
        isPlayerTurn := true }
      .enemyAttack = .error e :=
  enemyAttack_after_battleEnd_errors rng0 rng0 sEnemyTurn _ rfl

/-- `isAllPlayerPokemonDefeated` decides exactly "every roster member is
at 0 HP or less" (vacuously true for an empty roster). -/
theorem isAllPlayerPokemonDefeated_iff (roster : List Pokemon) :
    isAllPlayerPokemonDefeated roster = true ↔
      ∀ q ∈ roster, q.currentHp ≤ 0 := by
  cases roster with
  | nil => simp [isAllPlayerPokemonDefeated]
  | cons x xs => simp [isAllPlayerPokemonDefeated, List.all_eq_true]

/-- C4: on `ENEMY_ATTACK_COMPLETE`, when the enemy's attack reduces the
active creature's HP to 0 the reducer transitions to `defeat` exactly
when every creature in the roster snapshot is at 0 HP, and to
`changingPokemon` (the mandatory re-selection) otherwise; when the
active creature survives, it returns to `playerTurn`. -/
theorem enemyAttackComplete_defeat_iff_roster_defeated :
    ∀ (rng : Rng) (s : BattleState) (pp : Pokemon) (mv : Move),
      s.playerPokemon = some pp → s.enemyMove = some mv →
      ∃ s', battleReducer rng s .enemyAttackComplete = .ok s' ∧
        (pp.currentHp ≤
            ((calculateDamage s.enemy (some pp) (some mv)
              rng.crit rng.rand).damage : ℚ) →
          ((s'.battleState = BattleStates.defeat ↔
              ∀ q ∈ s.playerRoster, q.currentHp ≤ 0) ∧
            (s'.battleState ≠ BattleStates.defeat →
              s'.battleState = BattleStates.changingPokemon))) ∧
        (((calculateDamage s.enemy (some pp) (some mv)
            rng.crit rng.rand).damage : ℚ) < pp.currentHp →
          s'.battleState = BattleStates.playerTurn) := by
  intro rng s pp mv hpp hmv
  rcases hred : battleReducer rng s .enemyAttackComplete with e | s'
  case error =>
    exfalso
    simp only [battleReducer, hpp, hmv] at hred
    split at hred <;> try split at hred
    all_goals exact Except.noConfusion hred
  case ok =>
    refine ⟨s', rfl, ?_, ?_⟩
    all_goals
      simp only [battleReducer, hpp, hmv] at hred
    · intro hf
      have hc1 : isPlayerDefeated (some
          { pp with
            currentHp := max 0 (pp.currentHp -
              ((calculateDamage s.enemy (some pp) (some mv)
                rng.crit rng.rand).damage : ℚ))
            isHit := true }) = true := by
        simp [isPlayerDefeated, max_le_iff, sub_nonpos]
        exact hf
      rw [if_pos hc1] at hred
      by_cases hall : isAllPlayerPokemonDefeated s.playerRoster = true
      · rw [if_pos hall] at hred
        simp only [Except.ok.injEq] at hred
        subst hred
        exact ⟨iff_of_true rfl ((isAllPlayerPokemonDefeated_iff _).mp hall),
          fun hne => absurd rfl hne⟩
      · rw [if_neg hall] at hred
        simp only [Except.ok.injEq] at hred
        subst hred
        refine ⟨iff_of_false (by simp) ?_, fun _ => rfl⟩
        exact fun hforall =>
          hall ((isAllPlayerPokemonDefeated_iff _).mpr hforall)
    · intro hlt
      have hc1 : isPlayerDefeated (some
          { pp with
            currentHp := max 0 (pp.currentHp -
              ((calculateDamage s.enemy (some pp) (some mv)
                rng.crit rng.rand).damage : ℚ))
            isHit := true }) = false := by
        simp [isPlayerDefeated, max_le_iff, sub_nonpos, not_le]
        exact hlt
      rw [if_neg (by simp [hc1])] at hred
      simp only [Except.ok.injEq] at hred
      subst hred
      rfl

/-- Closed witness for C4: Pikachu at 1 HP faints from an attack that
always deals at least 1 damage, and the roster still holds a healthy
Bulbasaur, so the battle moves to the mandatory re-selection state. -/
theorem enemyAttackComplete_defeat_iff_roster_defeated_witness :
    ∃ s', battleReducer rng0
      { sEnemyTurn with
        playerPokemon := some { pikachu with currentHp := 1 }
        enemyMove := some { name := "Sand Attack", type := "ground", power := 20 } }
      .enemyAttackComplete = .ok s' ∧
      s'.battleState = BattleStates.changingPokemon := by
  obtain ⟨s', hok, hfaint, _⟩ :=
    enemyAttackComplete_defeat_iff_roster_defeated rng0
      { sEnemyTurn with
        playerPokemon := some { pikachu with currentHp := 1 }
        enemyMove := some { name := "Sand Attack", type := "ground", power := 20 } }
      { pikachu with currentHp := 1 }
      { name := "Sand Attack", type := "ground", power := 20 } rfl rfl
  have hge : (1 : ℤ) ≤ (calculateDamage
      ({ sEnemyTurn with
        playerPokemon := some { pikachu with currentHp := 1 }
        enemyMove := some { name := "Sand Attack", type := "ground", power := 20 } } :
          BattleState).enemy
      (some { pikachu with currentHp := 1 })
      (some { name := "Sand Attack", type := "ground", power := 20 })
      rng0.crit rng0.rand).damage := by
    simp only [calculateDamage]
    exact le_max_left _ _
  have hf : ({ pikachu with currentHp := 1 } : Pokemon).currentHp ≤
      ((calculateDamage
        ({ sEnemyTurn with
          playerPokemon := some { pikachu with currentHp := 1 }
          enemyMove := some { name := "Sand Attack", type := "ground", power := 20 } } :
            BattleState).enemy
        (some { pikachu with currentHp := 1 })
        (some { name := "Sand Attack", type := "ground", power := 20 })
        rng0.crit rng0.rand).damage : ℚ) := by
    have : ((1 : ℤ) : ℚ) ≤ _ := Int.cast_le.mpr hge
    simpa using this
  obtain ⟨hiff, hne⟩ := hfaint hf
  refine ⟨s', hok, hne ?_⟩
  intro hdef
  have := hiff.mp hdef bulbasaur (by simp [sEnemyTurn])
  norm_num [bulbasaur] at this

/-- C10: within a battle the log is append-only — for every action other
than `START_BATTLE` and `BATTLE_END` that the reducer accepts, the
resulting `battleLog` is the previous `battleLog` with zero or more
entries appended; `START_BATTLE` resets it to the single encounter
message and `BATTLE_END` resets it to empty. -/
theorem battleReducer_log_append_only :
    ∀ (rng : Rng) (s : BattleState) (a : BattleAction) (s' : BattleState),
      battleReducer rng s a = .ok s' →
      match a with
      | .startBattle e => s'.battleLog = ["A wild " ++ e.name ++ " appeared!"]
      | .battleEnd => s'.battleLog = []
      | _ => ∃ t, s'.battleLog = s.battleLog ++ t := by
  intro rng s a s' h
  cases a <;>
    (simp only [battleReducer] at h
     repeat' split at h
     all_goals
       first
         | exact Except.noConfusion h
         | (simp only [Except.ok.injEq] at h
            subst h
            first
              | rfl
              | exact ⟨_, rfl⟩
              | exact ⟨[], (List.append_nil _).symm⟩))

/-- Closed witness for C10: fleeing appends to the log of a concrete
mid-battle state. -/
theorem battleReducer_log_append_only_witness :
    ∃ t s', battleReducer rng0 sEnemyTurn .flee = .ok s' ∧
      s'.battleLog = sEnemyTurn.battleLog ++ t := by
  obtain ⟨t, ht⟩ := battleReducer_log_append_only rng0 sEnemyTurn .flee _ rfl
  exact ⟨t, _, rfl, ht⟩
